import Mathlib

/-!
Shallow embedding of `src/practice1.c`, a Linux kernel module binding four
GPIO buttons (A–D) to two GPIO LEDs, with per-button press counters, a
usermode-helper notification per press, and module init/exit lifecycle.

Kernel API calls are modelled through an explicit hardware environment
(`HwEnv`) supplying the results of the fallible platform calls, and module
state (the file-level statics plus the physically observable line state) is
threaded explicitly as `KState`.  Interrupt handlers are embedded as a list
of primitive steps (`HStep`) interpreted by `applyStep`, so both the state
semantics and the internal step ordering of a handler are available.
-/

namespace Practice1

/-- The four buttons of the module, in declaration order A, B, C, D. -/
inductive Button where
  | A | B | C | D
deriving DecidableEq

/-- The two LED on/off flags of the module (`led1On`, `led2On`). -/
inductive Led where
  | led1 | led2
deriving DecidableEq

/-- `static unsigned int gpioLED1 = 14;` -/
def gpioLED1 : Nat := 14
/-- `static unsigned int gpioLED2 = 15;` -/
def gpioLED2 : Nat := 15
/-- `static unsigned int gpioButtonA = 8;` -/
def gpioButtonA : Nat := 8
/-- `static unsigned int gpioButtonB = 7;` -/
def gpioButtonB : Nat := 7
/-- `static unsigned int gpioButtonC = 23;` -/
def gpioButtonC : Nat := 23
/-- `static unsigned int gpioButtonD = 24;` -/
def gpioButtonD : Nat := 24

/-- All six GPIO pins used by the module, in declaration order. -/
def allPins : List Nat :=
  [gpioLED1, gpioLED2, gpioButtonA, gpioButtonB, gpioButtonC, gpioButtonD]

/-- Modulus of the C type `unsigned int` (32 bits on the target platform). -/
def U32 : Nat := 2 ^ 32

/-- The Linux errno `ENODEV` (the module returns `-ENODEV`). -/
def ENODEV : Int := 19

/-- `static char *argv1[] = {"/usr/bin/buttonScripts/buttonA.sh", NULL};` -/
def argv1head : String := "/usr/bin/buttonScripts/buttonA.sh"
/-- `static char *argv2[] = {"/usr/bin/buttonScripts/buttonB.sh", NULL};` -/
def argv2head : String := "/usr/bin/buttonScripts/buttonB.sh"
/-- `static char *argv3[] = {"/usr/bin/buttonScripts/buttonC.sh", NULL};` -/
def argv3head : String := "/usr/bin/buttonScripts/buttonC.sh"
/-- `static char *argv4[] = {"/usr/bin/buttonScripts/buttonD.sh", NULL};` -/
def argv4head : String := "/usr/bin/buttonScripts/buttonD.sh"

/-- Structured rendering of the module's `printk` lines. -/
inductive LogMsg where
  /-- "Initializing the GPIO_TEST LKM" -/
  | initBanner
  /-- "invalid LED n GPIO" -/
  | invalidLed (n : Nat)
  /-- "The button X state is currently: v" -/
  | buttonState (b : Button) (v : Bool)
  /-- "The button X is mapped to IRQ: n" -/
  | irqMap (b : Button) (n : Nat)
  /-- "The interrupt request result is: r" -/
  | irqRequestResult (r : Int)
  /-- "Interrupt! (button X state is v)" -/
  | interruptEdge (b : Button) (v : Bool)
  /-- "The button was pressed n times" / "Button X has been pressed n times." -/
  | pressCount (b : Button) (n : Nat)
  /-- "Goodbye from the LKM!" -/
  | goodbye
deriving DecidableEq

/-- Module state: the file-level static variables of `practice1.c` together
with the externally observable GPIO state (last written line values, line
ownership, sysfs exports, bound IRQs) and the kernel log. -/
structure KState where
  /-- `static unsigned int numberPressesA = 0;` (value of the 32-bit counter) -/
  numberPressesA : Nat
  /-- `static unsigned int numberPressesB = 0;` -/
  numberPressesB : Nat
  /-- `static unsigned int numberPressesC = 0;` -/
  numberPressesC : Nat
  /-- `static unsigned int numberPressesD = 0;` -/
  numberPressesD : Nat
  /-- `static bool led1On = 0;` -/
  led1On : Bool
  /-- `static bool led2On = 0;` -/
  led2On : Bool
  /-- `static unsigned int irqNumberA;` -/
  irqNumberA : Nat
  irqNumberB : Nat
  irqNumberC : Nat
  irqNumberD : Nat
  /-- Last value written to each GPIO line (via `gpio_direction_output` /
  `gpio_set_value`). -/
  lineValue : Nat → Bool
  /-- Pins currently owned via a successful `gpio_request` (the line table). -/
  owned : List Nat
  /-- Pins currently exported to sysfs via `gpio_export`. -/
  exported : List Nat
  /-- IRQ numbers currently bound via a successful `request_irq`. -/
  irqBound : List Nat
  /-- Kernel log of the module's `printk` output. -/
  log : List LogMsg

/-- The state given by the C static initializers, before `ebbgpio_init`:
all counters 0, both LED flags false, nothing owned, exported or bound. -/
def initialState : KState where
  numberPressesA := 0
  numberPressesB := 0
  numberPressesC := 0
  numberPressesD := 0
  led1On := false
  led2On := false
  irqNumberA := 0
  irqNumberB := 0
  irqNumberC := 0
  irqNumberD := 0
  lineValue := fun _ => false
  owned := []
  exported := []
  irqBound := []
  log := []

/-- Results supplied by the kernel/hardware to the module's platform calls. -/
structure HwEnv where
  /-- Result of `gpio_is_valid(pin)`. -/
  gpio_is_valid : Nat → Bool
  /-- Result of `gpio_request(pin, "sysfs")` (0 on success). -/
  gpio_request_result : Nat → Int
  /-- Result of `gpio_get_value(pin)` (physical read of an input line). -/
  gpio_get_value : Nat → Bool
  /-- Result of `gpio_to_irq(pin)`. -/
  gpio_to_irq : Nat → Nat
  /-- Result of `request_irq(irq, handler, IRQF_TRIGGER_RISING, ...)`
  (0 on success). -/
  request_irq_result : Nat → Int

/-- Pointwise update of the written-line-value map (a `gpio_set_value` /
`gpio_direction_output` write to one pin). -/
def updValue (f : Nat → Bool) (pin : Nat) (v : Bool) : Nat → Bool :=
  fun p => if p = pin then v else f p

/-- `gpio_request(pin, "sysfs")`: on success the pin joins the line table;
the module discards the returned result in every call site. -/
def gpio_request (env : HwEnv) (s : KState) (pin : Nat) : KState :=
  { s with owned := if env.gpio_request_result pin = 0 then s.owned ++ [pin] else s.owned }

/-- `gpio_export(pin, false)`: the pin becomes visible in sysfs (succeeds only
for an owned pin; the module ignores failures). -/
def gpio_export (s : KState) (pin : Nat) : KState :=
  { s with exported := if pin ∈ s.owned then s.exported ++ [pin] else s.exported }

/-- `gpio_unexport(pin)`: removes the pin from sysfs if present (no-op
otherwise, as in the exit path for the never-exported button pins). -/
def gpio_unexport (s : KState) (pin : Nat) : KState :=
  { s with exported := s.exported.filter (fun p => p ≠ pin) }

/-- `gpio_free(pin)`: releases ownership of the pin (no-op if not owned). -/
def gpio_free (s : KState) (pin : Nat) : KState :=
  { s with owned := s.owned.filter (fun p => p ≠ pin) }

/-- `free_irq(irq, NULL)`: removes the IRQ binding. -/
def free_irq (s : KState) (irq : Nat) : KState :=
  { s with irqBound := s.irqBound.filter (fun i => i ≠ irq) }

/-- One primitive step of an interrupt handler body, in source order. -/
inductive HStep where
  /-- assignment to `led1On` / `led2On` -/
  | setLedFlag (l : Led) (v : Bool)
  /-- `gpio_set_value(pin, ledFlag)` — writes the current value of the flag -/
  | writeLedFromFlag (l : Led) (pin : Nat)
  /-- `printk(... "Interrupt! (button X state is %d)" ..., gpio_get_value(pin))` -/
  | logEdge (b : Button) (pin : Nat)
  /-- `call_usermodehelper(path, argv, envp, UMH_NO_WAIT)` — fire and forget,
  result discarded -/
  | dispatch (path : String)
  /-- `numberPressesX++` on the 32-bit counter -/
  | incCounter (b : Button)
deriving DecidableEq

/-- Read the named LED flag. -/
def ledFlag (s : KState) : Led → Bool
  | .led1 => s.led1On
  | .led2 => s.led2On

/-- Interpret one handler step on the module state.  The `dispatch` step has
no effect on module state: the launch result of `call_usermodehelper` is
discarded by the handler. -/
def applyStep (env : HwEnv) (s : KState) : HStep → KState
  | .setLedFlag .led1 v => { s with led1On := v }
  | .setLedFlag .led2 v => { s with led2On := v }
  | .writeLedFromFlag l pin => { s with lineValue := updValue s.lineValue pin (ledFlag s l) }
  | .logEdge b pin => { s with log := s.log ++ [.interruptEdge b (env.gpio_get_value pin)] }
  | .dispatch _ => s
  | .incCounter .A => { s with numberPressesA := (s.numberPressesA + 1) % U32 }
  | .incCounter .B => { s with numberPressesB := (s.numberPressesB + 1) % U32 }
  | .incCounter .C => { s with numberPressesC := (s.numberPressesC + 1) % U32 }
  | .incCounter .D => { s with numberPressesD := (s.numberPressesD + 1) % U32 }

/-- Return values of a Linux interrupt handler. -/
inductive IrqReturn where
  | IRQ_NONE
  | IRQ_HANDLED
deriving DecidableEq

/-- Body of `ebbgpio_irq_handlerA`, line by line:
`led1On = true; gpio_set_value(gpioLED1, led1On); printk(...); call_usermodehelper(argv1[0], ...); numberPressesA++;` -/
def ebbgpio_irq_handlerA_steps : List HStep :=
  [.setLedFlag .led1 true, .writeLedFromFlag .led1 gpioLED1,
   .logEdge .A gpioButtonA, .dispatch argv1head, .incCounter .A]

/-- Body of `ebbgpio_irq_handlerB`: `led1On = false; ...`. -/
def ebbgpio_irq_handlerB_steps : List HStep :=
  [.setLedFlag .led1 false, .writeLedFromFlag .led1 gpioLED1,
   .logEdge .B gpioButtonB, .dispatch argv2head, .incCounter .B]

/-- Body of `ebbgpio_irq_handlerC`: `led2On = true; ...`. -/
def ebbgpio_irq_handlerC_steps : List HStep :=
  [.setLedFlag .led2 true, .writeLedFromFlag .led2 gpioLED2,
   .logEdge .C gpioButtonC, .dispatch argv3head, .incCounter .C]

/-- Body of `ebbgpio_irq_handlerD`: `led2On = false; ...`. -/
def ebbgpio_irq_handlerD_steps : List HStep :=
  [.setLedFlag .led2 false, .writeLedFromFlag .led2 gpioLED2,
   .logEdge .D gpioButtonD, .dispatch argv4head, .incCounter .D]

/-- `ebbgpio_irq_handlerA`.  `umh` is the (discarded) return value of
`call_usermodehelper`; the handler returns `IRQ_HANDLED` unconditionally. -/
def ebbgpio_irq_handlerA (env : HwEnv) (_umh : Int) (s : KState) : KState × IrqReturn :=
  (ebbgpio_irq_handlerA_steps.foldl (applyStep env) s, .IRQ_HANDLED)

/-- `ebbgpio_irq_handlerB`. -/
def ebbgpio_irq_handlerB (env : HwEnv) (_umh : Int) (s : KState) : KState × IrqReturn :=
  (ebbgpio_irq_handlerB_steps.foldl (applyStep env) s, .IRQ_HANDLED)

/-- `ebbgpio_irq_handlerC`. -/
def ebbgpio_irq_handlerC (env : HwEnv) (_umh : Int) (s : KState) : KState × IrqReturn :=
  (ebbgpio_irq_handlerC_steps.foldl (applyStep env) s, .IRQ_HANDLED)

/-- `ebbgpio_irq_handlerD`. -/
def ebbgpio_irq_handlerD (env : HwEnv) (_umh : Int) (s : KState) : KState × IrqReturn :=
  (ebbgpio_irq_handlerD_steps.foldl (applyStep env) s, .IRQ_HANDLED)

/-- `gpio_set_value(pin, v)`: directly drives the physical line. -/
def gpio_set_value (s : KState) (pin : Nat) (v : Bool) : KState :=
  { s with lineValue := updValue s.lineValue pin v }

/-- `printk(KERN_INFO "GPIO_TEST: Initializing the GPIO_TEST LKM\n")`. -/
def logInitBanner (s : KState) : KState :=
  { s with log := s.log ++ [LogMsg.initBanner] }

/-- `printk(KERN_INFO "GPIO_TEST: invalid LED n GPIO\n")`. -/
def logInvalidLed (n : Nat) (s : KState) : KState :=
  { s with log := s.log ++ [LogMsg.invalidLed n] }

/-- `led1On = true; led2On = true;` at the top of the init success path. -/
def ledsOn (s : KState) : KState :=
  { s with led1On := true, led2On := true }

/-- `gpio_direction_output(gpioLED1, led1On)`: configures the line as output
and drives it with the current value of the `led1On` flag. -/
def dirOutputLed1 (s : KState) : KState :=
  gpio_set_value s gpioLED1 s.led1On

/-- `gpio_direction_output(gpioLED2, led2On)`. -/
def dirOutputLed2 (s : KState) : KState :=
  gpio_set_value s gpioLED2 s.led2On

/-- The four `printk` quick tests of the button states on LKM load. -/
def logButtonStates (env : HwEnv) (s : KState) : KState :=
  { s with log := s.log ++
    [LogMsg.buttonState .A (env.gpio_get_value gpioButtonA),
     LogMsg.buttonState .B (env.gpio_get_value gpioButtonB),
     LogMsg.buttonState .C (env.gpio_get_value gpioButtonC),
     LogMsg.buttonState .D (env.gpio_get_value gpioButtonD)] }

/-- `irqNumberA = gpio_to_irq(gpioButtonA); printk(... irqNumberA)`. -/
def mapIrqA (env : HwEnv) (s : KState) : KState :=
  { s with irqNumberA := env.gpio_to_irq gpioButtonA
           log := s.log ++ [LogMsg.irqMap .A (env.gpio_to_irq gpioButtonA)] }

/-- `irqNumberB = gpio_to_irq(gpioButtonB); printk(...)`. -/
def mapIrqB (env : HwEnv) (s : KState) : KState :=
  { s with irqNumberB := env.gpio_to_irq gpioButtonB
           log := s.log ++ [LogMsg.irqMap .B (env.gpio_to_irq gpioButtonB)] }

/-- `irqNumberC = gpio_to_irq(gpioButtonC); printk(...)`. -/
def mapIrqC (env : HwEnv) (s : KState) : KState :=
  { s with irqNumberC := env.gpio_to_irq gpioButtonC
           log := s.log ++ [LogMsg.irqMap .C (env.gpio_to_irq gpioButtonC)] }

/-- `irqNumberD = gpio_to_irq(gpioButtonD); printk(...)`. -/
def mapIrqD (env : HwEnv) (s : KState) : KState :=
  { s with irqNumberD := env.gpio_to_irq gpioButtonD
           log := s.log ++ [LogMsg.irqMap .D (env.gpio_to_irq gpioButtonD)] }

/-- `resultA = request_irq(irqNumberA, handlerA, IRQF_TRIGGER_RISING, ...)`:
on success the IRQ becomes bound; the result is kept only in `resultA`. -/
def requestIrqA (env : HwEnv) (s : KState) : KState :=
  { s with irqBound :=
      if env.request_irq_result s.irqNumberA = 0
      then s.irqBound ++ [s.irqNumberA] else s.irqBound }

/-- `resultB = request_irq(irqNumberB, handlerB, ...)`; result discarded. -/
def requestIrqB (env : HwEnv) (s : KState) : KState :=
  { s with irqBound :=
      if env.request_irq_result s.irqNumberB = 0
      then s.irqBound ++ [s.irqNumberB] else s.irqBound }

/-- `resultC = request_irq(irqNumberC, handlerC, ...)`; result discarded. -/
def requestIrqC (env : HwEnv) (s : KState) : KState :=
  { s with irqBound :=
      if env.request_irq_result s.irqNumberC = 0
      then s.irqBound ++ [s.irqNumberC] else s.irqBound }

/-- `resultD = request_irq(irqNumberD, handlerD, ...)`; result discarded. -/
def requestIrqD (env : HwEnv) (s : KState) : KState :=
  { s with irqBound :=
      if env.request_irq_result s.irqNumberD = 0
      then s.irqBound ++ [s.irqNumberD] else s.irqBound }

/-- `printk(KERN_INFO "GPIO_TEST: The interrupt request result is: %d", resultA)`. -/
def logIrqResultA (env : HwEnv) (s : KState) : KState :=
  { s with log := s.log ++
    [LogMsg.irqRequestResult (env.request_irq_result s.irqNumberA)] }

/-- The state transformation of `ebbgpio_init`'s success path (both LED pins
valid), one pipeline stage per source line, in source order. -/
def initConfigured (env : HwEnv) (s : KState) : KState :=
  logInitBanner s
  |> ledsOn
  |> (fun t => gpio_request env t gpioLED1)
  |> (fun t => gpio_request env t gpioLED2)
  |> dirOutputLed1
  |> dirOutputLed2
  |> (fun t => gpio_export t gpioLED1)
  |> (fun t => gpio_export t gpioLED2)
  |> (fun t => gpio_request env t gpioButtonA)
  |> (fun t => gpio_request env t gpioButtonB)
  |> (fun t => gpio_request env t gpioButtonC)
  |> (fun t => gpio_request env t gpioButtonD)
  |> logButtonStates env
  |> mapIrqA env
  |> mapIrqB env
  |> mapIrqC env
  |> mapIrqD env
  |> requestIrqA env
  |> requestIrqB env
  |> requestIrqC env
  |> requestIrqD env
  |> logIrqResultA env

/-- `ebbgpio_init`.  Returns the C function's return value together with the
post-state.  After the two LED validity checks nothing else can abort: the
results of all four `gpio_request` calls and of `request_irq` for buttons B,
C and D are computed but discarded, and the function returns `resultA`, the
`request_irq` result for button A's IRQ (`irqNumberA = gpio_to_irq(gpioButtonA)`). -/
def ebbgpio_init (env : HwEnv) (s : KState) : Int × KState :=
  if env.gpio_is_valid gpioLED1 = false then
    (-ENODEV, logInvalidLed 1 (logInitBanner s))
  else if env.gpio_is_valid gpioLED2 = false then
    (-ENODEV, logInvalidLed 2 (logInitBanner s))
  else
    (env.request_irq_result (env.gpio_to_irq gpioButtonA), initConfigured env s)

/-- `printk` of button D's state and press count at the top of `ebbgpio_exit`. -/
def exitLogHead (env : HwEnv) (s : KState) : KState :=
  { s with log := s.log ++
    [LogMsg.buttonState .D (env.gpio_get_value gpioButtonD),
     LogMsg.pressCount .D s.numberPressesD] }

/-- The four final per-button press-count `printk`s and the goodbye line of
`ebbgpio_exit`. -/
def exitLogTail (s : KState) : KState :=
  { s with log := s.log ++
    [LogMsg.pressCount .A s.numberPressesA,
     LogMsg.pressCount .B s.numberPressesB,
     LogMsg.pressCount .C s.numberPressesC,
     LogMsg.pressCount .D s.numberPressesD,
     LogMsg.goodbye] }

/-- `free_irq(irqNumberA, NULL)`. -/
def freeIrqA (s : KState) : KState := free_irq s s.irqNumberA
/-- `free_irq(irqNumberB, NULL)`. -/
def freeIrqB (s : KState) : KState := free_irq s s.irqNumberB
/-- `free_irq(irqNumberC, NULL)`. -/
def freeIrqC (s : KState) : KState := free_irq s s.irqNumberC
/-- `free_irq(irqNumberD, NULL)`. -/
def freeIrqD (s : KState) : KState := free_irq s s.irqNumberD

/-- `ebbgpio_exit`, one pipeline stage per source line, in source order: log
button D's state and counter, force both LED lines to 0, unexport the LEDs,
then for each button in declaration order A, B, C, D free its IRQ and
unexport the (never-exported) button pin, then free all six lines, then log
the four final counters and the goodbye line. -/
def ebbgpio_exit (env : HwEnv) (s : KState) : KState :=
  exitLogHead env s
  |> (fun t => gpio_set_value t gpioLED1 false)
  |> (fun t => gpio_set_value t gpioLED2 false)
  |> (fun t => gpio_unexport t gpioLED1)
  |> (fun t => gpio_unexport t gpioLED2)
  |> freeIrqA
  |> (fun t => gpio_unexport t gpioButtonA)
  |> freeIrqB
  |> (fun t => gpio_unexport t gpioButtonB)
  |> freeIrqC
  |> (fun t => gpio_unexport t gpioButtonC)
  |> freeIrqD
  |> (fun t => gpio_unexport t gpioButtonD)
  |> (fun t => gpio_free t gpioLED1)
  |> (fun t => gpio_free t gpioLED2)
  |> (fun t => gpio_free t gpioButtonA)
  |> (fun t => gpio_free t gpioButtonB)
  |> (fun t => gpio_free t gpioButtonC)
  |> (fun t => gpio_free t gpioButtonD)
  |> exitLogTail

/-- One resource-lifecycle operation of the module's init/exit paths, used to
state ordering properties of construction and destruction. -/
inductive Ev where
  | request (pin : Nat)
  | dirOutput (pin : Nat) (v : Bool)
  | dirInput (pin : Nat)
  | debounce (pin : Nat) (ms : Nat)
  | exportPin (pin : Nat)
  | unexport (pin : Nat)
  | setValue (pin : Nat) (v : Bool)
  | bindIrq (buttonPin : Nat)
  | unbindIrq (buttonPin : Nat)
  | free (pin : Nat)
deriving DecidableEq

/-- The sequence of resource-lifecycle calls issued by `ebbgpio_init` on its
successful path (both LED pins valid), in source order.  IRQ bind/unbind
events are identified by the button pin whose `gpio_to_irq` result they use. -/
def ebbgpio_init_trace : List Ev :=
  [.request gpioLED1, .request gpioLED2,
   .dirOutput gpioLED1 true, .dirOutput gpioLED2 true,
   .exportPin gpioLED1, .exportPin gpioLED2,
   .request gpioButtonA, .dirInput gpioButtonA, .debounce gpioButtonA 200,
   .request gpioButtonB, .dirInput gpioButtonB, .debounce gpioButtonB 200,
   .request gpioButtonC, .dirInput gpioButtonC, .debounce gpioButtonC 200,
   .request gpioButtonD, .dirInput gpioButtonD, .debounce gpioButtonD 200,
   .bindIrq gpioButtonA, .bindIrq gpioButtonB, .bindIrq gpioButtonC, .bindIrq gpioButtonD]

/-- The sequence of resource-lifecycle calls issued by `ebbgpio_exit`, in
source order. -/
def ebbgpio_exit_trace : List Ev :=
  [.setValue gpioLED1 false, .setValue gpioLED2 false,
   .unexport gpioLED1, .unexport gpioLED2,
   .unbindIrq gpioButtonA, .unexport gpioButtonA,
   .unbindIrq gpioButtonB, .unexport gpioButtonB,
   .unbindIrq gpioButtonC, .unexport gpioButtonC,
   .unbindIrq gpioButtonD, .unexport gpioButtonD,
   .free gpioLED1, .free gpioLED2,
   .free gpioButtonA, .free gpioButtonB, .free gpioButtonC, .free gpioButtonD]

/-- Modelled from the spec: the teardown sequence the spec's `stop()` clause
claims — "for each binding in reverse declaration order — unbind interrupt,
force its LED output to off, unexport LED, release both lines", where binding
A drives LED1, B drives LED1, C drives LED2, D drives LED2 (the output line
each handler writes). -/
def spec_stop_trace : List Ev :=
  [.unbindIrq gpioButtonD, .setValue gpioLED2 false, .unexport gpioLED2,
     .free gpioLED2, .free gpioButtonD,
   .unbindIrq gpioButtonC, .setValue gpioLED2 false, .unexport gpioLED2,
     .free gpioLED2, .free gpioButtonC,
   .unbindIrq gpioButtonB, .setValue gpioLED1 false, .unexport gpioLED1,
     .free gpioLED1, .free gpioButtonB,
   .unbindIrq gpioButtonA, .setValue gpioLED1 false, .unexport gpioLED1,
     .free gpioLED1, .free gpioButtonA]

/-- The pin of a `request` event, if any. -/
def requestPin : Ev → Option Nat
  | .request p => some p
  | _ => none

/-- The pin of a `free` event, if any. -/
def freePin : Ev → Option Nat
  | .free p => some p
  | _ => none

/-- Is this event an `unbindIrq`? -/
def isUnbindIrq : Ev → Bool
  | .unbindIrq _ => true
  | _ => false

/-- The four core handler steps of the spec's ordering clause (everything but
the log line). -/
def isCoreStep : HStep → Bool
  | .logEdge _ _ => false
  | _ => true

/-- Modelled from the spec: the results of the fallible steps of `start()`
in execution order — LED pin validation, `gpio_request` of the two LEDs and
four buttons, `request_irq` of the four buttons — each as an errno-style
value (0 = success). -/
def initStepResults (env : HwEnv) : List Int :=
  [if env.gpio_is_valid gpioLED1 then 0 else -ENODEV,
   if env.gpio_is_valid gpioLED2 then 0 else -ENODEV,
   env.gpio_request_result gpioLED1, env.gpio_request_result gpioLED2,
   env.gpio_request_result gpioButtonA, env.gpio_request_result gpioButtonB,
   env.gpio_request_result gpioButtonC, env.gpio_request_result gpioButtonD,
   env.request_irq_result (env.gpio_to_irq gpioButtonA),
   env.request_irq_result (env.gpio_to_irq gpioButtonB),
   env.request_irq_result (env.gpio_to_irq gpioButtonC),
   env.request_irq_result (env.gpio_to_irq gpioButtonD)]

/-- Modelled from the spec: "the first encountered error" of a `start()`
call — the first nonzero step result, or 0 when every step succeeds. -/
def firstInitError (env : HwEnv) : Int :=
  ((initStepResults env).find? (fun r => r ≠ 0)).getD 0

/-- An all-success hardware environment: every pin valid, every request and
every interrupt bind succeeds, input lines read low, pin `p` maps to IRQ
`100 + p`. -/
def env0 : HwEnv where
  gpio_is_valid := fun _ => true
  gpio_request_result := fun _ => 0
  gpio_get_value := fun _ => false
  gpio_to_irq := fun p => 100 + p
  request_irq_result := fun _ => 0

/-- Like `env0`, except that `request_irq` fails with `-5` for button B's
IRQ (`100 + 7 = 107`); everything else succeeds. -/
def envFailB : HwEnv :=
  { env0 with request_irq_result := fun i => if i = 107 then -5 else 0 }

/-- Like `env0`, except that the pin of button B (7) is invalid: its
`gpio_request` fails with `-22` and `request_irq` on its IRQ fails with
`-22`; everything else succeeds. -/
def envInvalidB : HwEnv :=
  { env0 with
    gpio_is_valid := fun p => if p = gpioButtonB then false else true
    gpio_request_result := fun p => if p = gpioButtonB then -22 else 0
    request_irq_result := fun i => if i = 107 then -22 else 0 }

/-- Like `env0`, except that the pin of LED 1 is invalid. -/
def envInvalidLed1 : HwEnv :=
  { env0 with gpio_is_valid := fun p => if p = gpioLED1 then false else true }

/-- Like `env0`, except that the pin of LED 2 is invalid. -/
def envInvalidLed2 : HwEnv :=
  { env0 with gpio_is_valid := fun p => if p = gpioLED2 then false else true }

/-- A running state with LED 1 lit (flag and line both high). -/
def sLed1On : KState :=
  { initialState with
    led1On := true
    lineValue := updValue initialState.lineValue gpioLED1 true }

/-- A running state whose button-A counter is at the maximum value of the
32-bit `unsigned int`. -/
def sWrapA : KState :=
  { initialState with numberPressesA := U32 - 1 }

/-- A running state after a full `start()` and seven presses of button A,
as in the spec's unload scenario. -/
def sSevenA : KState :=
  { initialState with
    numberPressesA := 7
    led1On := true
    lineValue := updValue initialState.lineValue gpioLED1 true
    owned := allPins
    exported := [gpioLED1, gpioLED2]
    irqBound := [108, 107, 123, 124] }

/-- `env` with the validity of the four button pins replaced by `g` and
every other pin's validity unchanged — used to state that `ebbgpio_init`
never consults the validity of a button pin. -/
def overrideButtonValidity (env : HwEnv) (g : Nat → Bool) : HwEnv :=
  { env with gpio_is_valid := fun p =>
      if p = gpioButtonA ∨ p = gpioButtonB ∨ p = gpioButtonC ∨ p = gpioButtonD then g p
      else env.gpio_is_valid p }

/-! ## Helper lemmas -/

/-- Normal form of handler A: it sets `led1On` to `true`, writes `true` to
LED 1's line, logs the edge, and increments the A counter modulo `2^32`. -/
theorem handlerA_eq (env : HwEnv) (umh : Int) (s : KState) :
    ebbgpio_irq_handlerA env umh s =
      ({ s with led1On := true,
                lineValue := updValue s.lineValue gpioLED1 true,
                log := s.log ++ [.interruptEdge .A (env.gpio_get_value gpioButtonA)],
                numberPressesA := (s.numberPressesA + 1) % U32 }, .IRQ_HANDLED) := rfl

/-- Normal form of handler B: it sets `led1On` to `false`. -/
theorem handlerB_eq (env : HwEnv) (umh : Int) (s : KState) :
    ebbgpio_irq_handlerB env umh s =
      ({ s with led1On := false,
                lineValue := updValue s.lineValue gpioLED1 false,
                log := s.log ++ [.interruptEdge .B (env.gpio_get_value gpioButtonB)],
                numberPressesB := (s.numberPressesB + 1) % U32 }, .IRQ_HANDLED) := rfl

/-- Normal form of handler C: it sets `led2On` to `true`. -/
theorem handlerC_eq (env : HwEnv) (umh : Int) (s : KState) :
    ebbgpio_irq_handlerC env umh s =
      ({ s with led2On := true,
                lineValue := updValue s.lineValue gpioLED2 true,
                log := s.log ++ [.interruptEdge .C (env.gpio_get_value gpioButtonC)],
                numberPressesC := (s.numberPressesC + 1) % U32 }, .IRQ_HANDLED) := rfl

/-- Normal form of handler D: it sets `led2On` to `false`. -/
theorem handlerD_eq (env : HwEnv) (umh : Int) (s : KState) :
    ebbgpio_irq_handlerD env umh s =
      ({ s with led2On := false,
                lineValue := updValue s.lineValue gpioLED2 false,
                log := s.log ++ [.interruptEdge .D (env.gpio_get_value gpioButtonD)],
                numberPressesD := (s.numberPressesD + 1) % U32 }, .IRQ_HANDLED) := rfl

/-- Filtering a list of pins through the six removals performed by
`ebbgpio_exit` yields the empty list whenever every element is one of the
module's six pins. -/
theorem filter_six_nil (l : List Nat) (h : ∀ p ∈ l, p ∈ allPins) :
    ((((((l.filter (fun p => p ≠ gpioLED1)).filter (fun p => p ≠ gpioLED2)).filter
        (fun p => p ≠ gpioButtonA)).filter (fun p => p ≠ gpioButtonB)).filter
        (fun p => p ≠ gpioButtonC)).filter (fun p => p ≠ gpioButtonD)) = [] := by
  induction l with
  | nil => rfl
  | cons a t ih =>
    have ha := h a (List.mem_cons_self a t)
    have hrec := ih (fun p hp => h p (List.mem_cons_of_mem a hp))
    simp only [allPins, gpioLED1, gpioLED2, gpioButtonA, gpioButtonB, gpioButtonC,
      gpioButtonD, List.mem_cons, List.not_mem_nil, or_false] at ha
    rcases ha with rfl | rfl | rfl | rfl | rfl | rfl <;>
      simpa [List.filter_cons, gpioLED1, gpioLED2, gpioButtonA, gpioButtonB,
        gpioButtonC, gpioButtonD] using hrec

/-! ## Claim theorems -/

/-- C10: every interrupt handler invocation, for every button, hardware
environment, usermode-helper result and module state, returns `IRQ_HANDLED`;
no input or state makes any of the four handlers return anything else. -/
theorem c10_handlers_return_handled (env : HwEnv) (umh : Int) (s : KState) :
    (ebbgpio_irq_handlerA env umh s).2 = .IRQ_HANDLED ∧
    (ebbgpio_irq_handlerB env umh s).2 = .IRQ_HANDLED ∧
    (ebbgpio_irq_handlerC env umh s).2 = .IRQ_HANDLED ∧
    (ebbgpio_irq_handlerD env umh s).2 = .IRQ_HANDLED :=
  ⟨rfl, rfl, rfl, rfl⟩

/-- C9: the launch result of `call_usermodehelper` is ignored by every
handler — the resulting state and return value are identical for any two
launch results (in particular for success and failure), the press counter is
still incremented, and the handler still returns `IRQ_HANDLED`. -/
theorem c9_dispatch_failure_isolated (env : HwEnv) (r r' : Int) (s : KState) :
    ebbgpio_irq_handlerA env r s = ebbgpio_irq_handlerA env r' s ∧
    ebbgpio_irq_handlerB env r s = ebbgpio_irq_handlerB env r' s ∧
    ebbgpio_irq_handlerC env r s = ebbgpio_irq_handlerC env r' s ∧
    ebbgpio_irq_handlerD env r s = ebbgpio_irq_handlerD env r' s ∧
    (ebbgpio_irq_handlerA env r s).1.numberPressesA = (s.numberPressesA + 1) % U32 ∧
    (ebbgpio_irq_handlerB env r s).1.numberPressesB = (s.numberPressesB + 1) % U32 ∧
    (ebbgpio_irq_handlerC env r s).1.numberPressesC = (s.numberPressesC + 1) % U32 ∧
    (ebbgpio_irq_handlerD env r s).1.numberPressesD = (s.numberPressesD + 1) % U32 ∧
    (ebbgpio_irq_handlerA env r s).2 = .IRQ_HANDLED :=
  ⟨rfl, rfl, rfl, rfl, rfl, rfl, rfl, rfl, rfl⟩

/-- C8 counterexample: with the A counter at `2^32 - 1` (the maximum of the
C type `unsigned int`), a qualifying edge on button A wraps the counter to 0,
which is a decrease — refuting unconditional monotonicity and the
unconditional increase by exactly 1. -/
theorem c8_counterexample :
    (ebbgpio_irq_handlerA env0 0 sWrapA).1.numberPressesA < sWrapA.numberPressesA := by
  decide

/-- C8 amended: each qualifying edge on a button increments that button's
counter by exactly 1 provided the 32-bit counter does not overflow (the
increment is performed modulo `2^32`); under the same no-overflow bound the
counter never decreases across a handler invocation. -/
theorem c8_amended (env : HwEnv) (umh : Int) (s : KState)
    (hA : s.numberPressesA + 1 < U32) (hB : s.numberPressesB + 1 < U32)
    (hC : s.numberPressesC + 1 < U32) (hD : s.numberPressesD + 1 < U32) :
    (ebbgpio_irq_handlerA env umh s).1.numberPressesA = s.numberPressesA + 1 ∧
    (ebbgpio_irq_handlerB env umh s).1.numberPressesB = s.numberPressesB + 1 ∧
    (ebbgpio_irq_handlerC env umh s).1.numberPressesC = s.numberPressesC + 1 ∧
    (ebbgpio_irq_handlerD env umh s).1.numberPressesD = s.numberPressesD + 1 ∧
    s.numberPressesA ≤ (ebbgpio_irq_handlerA env umh s).1.numberPressesA ∧
    s.numberPressesB ≤ (ebbgpio_irq_handlerB env umh s).1.numberPressesB ∧
    s.numberPressesC ≤ (ebbgpio_irq_handlerC env umh s).1.numberPressesC ∧
    s.numberPressesD ≤ (ebbgpio_irq_handlerD env umh s).1.numberPressesD := by
  refine ⟨Nat.mod_eq_of_lt hA, Nat.mod_eq_of_lt hB, Nat.mod_eq_of_lt hC,
    Nat.mod_eq_of_lt hD, ?_, ?_, ?_, ?_⟩
  · show s.numberPressesA ≤ (s.numberPressesA + 1) % U32
    rw [Nat.mod_eq_of_lt hA]; omega
  · show s.numberPressesB ≤ (s.numberPressesB + 1) % U32
    rw [Nat.mod_eq_of_lt hB]; omega
  · show s.numberPressesC ≤ (s.numberPressesC + 1) % U32
    rw [Nat.mod_eq_of_lt hC]; omega
  · show s.numberPressesD ≤ (s.numberPressesD + 1) % U32
    rw [Nat.mod_eq_of_lt hD]; omega

/-- C8 witness: the amended claim instantiated at the initial state (all
counters 0) under `env0`. -/
theorem c8_amended_witness :
    (ebbgpio_irq_handlerA env0 0 initialState).1.numberPressesA = initialState.numberPressesA + 1 ∧
    (ebbgpio_irq_handlerB env0 0 initialState).1.numberPressesB = initialState.numberPressesB + 1 ∧
    (ebbgpio_irq_handlerC env0 0 initialState).1.numberPressesC = initialState.numberPressesC + 1 ∧
    (ebbgpio_irq_handlerD env0 0 initialState).1.numberPressesD = initialState.numberPressesD + 1 ∧
    initialState.numberPressesA ≤ (ebbgpio_irq_handlerA env0 0 initialState).1.numberPressesA ∧
    initialState.numberPressesB ≤ (ebbgpio_irq_handlerB env0 0 initialState).1.numberPressesB ∧
    initialState.numberPressesC ≤ (ebbgpio_irq_handlerC env0 0 initialState).1.numberPressesC ∧
    initialState.numberPressesD ≤ (ebbgpio_irq_handlerD env0 0 initialState).1.numberPressesD :=
  c8_amended env0 0 initialState (by decide) (by decide) (by decide) (by decide)

/-- C1 counterexample: with LED 1 already lit, a qualifying edge on button A
leaves `led1On` equal to `true` instead of inverting it — the handler assigns
a constant, it does not toggle. -/
theorem c1_counterexample :
    (ebbgpio_irq_handlerA env0 0 sLed1On).1.led1On ≠ (!sLed1On.led1On) := by
  decide

/-- C1 amended: a qualifying edge on button `i` increments exactly counter
`i` (modulo `2^32`) and leaves the other three counters unchanged, but the
handlers do not toggle: A forces `led1On := true`, B forces `led1On := false`,
C forces `led2On := true`, D forces `led2On := false` (buttons share the LEDs
in pairs A,B → LED 1 and C,D → LED 2); each handler writes only its own LED's
line, leaving every other line value and the other LED flag unchanged. -/
theorem c1_amended (env : HwEnv) (umh : Int) (s : KState) (p q : Nat)
    (hp : p ≠ gpioLED1) (hq : q ≠ gpioLED2) :
    ((ebbgpio_irq_handlerA env umh s).1.led1On = true ∧
     (ebbgpio_irq_handlerA env umh s).1.lineValue gpioLED1 = true ∧
     (ebbgpio_irq_handlerA env umh s).1.led2On = s.led2On ∧
     (ebbgpio_irq_handlerA env umh s).1.lineValue p = s.lineValue p ∧
     (ebbgpio_irq_handlerA env umh s).1.numberPressesA = (s.numberPressesA + 1) % U32 ∧
     (ebbgpio_irq_handlerA env umh s).1.numberPressesB = s.numberPressesB ∧
     (ebbgpio_irq_handlerA env umh s).1.numberPressesC = s.numberPressesC ∧
     (ebbgpio_irq_handlerA env umh s).1.numberPressesD = s.numberPressesD) ∧
    ((ebbgpio_irq_handlerB env umh s).1.led1On = false ∧
     (ebbgpio_irq_handlerB env umh s).1.lineValue gpioLED1 = false ∧
     (ebbgpio_irq_handlerB env umh s).1.led2On = s.led2On ∧
     (ebbgpio_irq_handlerB env umh s).1.lineValue p = s.lineValue p ∧
     (ebbgpio_irq_handlerB env umh s).1.numberPressesB = (s.numberPressesB + 1) % U32 ∧
     (ebbgpio_irq_handlerB env umh s).1.numberPressesA = s.numberPressesA ∧
     (ebbgpio_irq_handlerB env umh s).1.numberPressesC = s.numberPressesC ∧
     (ebbgpio_irq_handlerB env umh s).1.numberPressesD = s.numberPressesD) ∧
    ((ebbgpio_irq_handlerC env umh s).1.led2On = true ∧
     (ebbgpio_irq_handlerC env umh s).1.lineValue gpioLED2 = true ∧
     (ebbgpio_irq_handlerC env umh s).1.led1On = s.led1On ∧
     (ebbgpio_irq_handlerC env umh s).1.lineValue q = s.lineValue q ∧
     (ebbgpio_irq_handlerC env umh s).1.numberPressesC = (s.numberPressesC + 1) % U32 ∧
     (ebbgpio_irq_handlerC env umh s).1.numberPressesA = s.numberPressesA ∧
     (ebbgpio_irq_handlerC env umh s).1.numberPressesB = s.numberPressesB ∧
     (ebbgpio_irq_handlerC env umh s).1.numberPressesD = s.numberPressesD) ∧
    ((ebbgpio_irq_handlerD env umh s).1.led2On = false ∧
     (ebbgpio_irq_handlerD env umh s).1.lineValue gpioLED2 = false ∧
     (ebbgpio_irq_handlerD env umh s).1.led1On = s.led1On ∧
     (ebbgpio_irq_handlerD env umh s).1.lineValue q = s.lineValue q ∧
     (ebbgpio_irq_handlerD env umh s).1.numberPressesD = (s.numberPressesD + 1) % U32 ∧
     (ebbgpio_irq_handlerD env umh s).1.numberPressesA = s.numberPressesA ∧
     (ebbgpio_irq_handlerD env umh s).1.numberPressesB = s.numberPressesB ∧
     (ebbgpio_irq_handlerD env umh s).1.numberPressesC = s.numberPressesC) := by
  refine ⟨⟨rfl, rfl, rfl, ?_, rfl, rfl, rfl, rfl⟩,
          ⟨rfl, rfl, rfl, ?_, rfl, rfl, rfl, rfl⟩,
          ⟨rfl, rfl, rfl, ?_, rfl, rfl, rfl, rfl⟩,
          ⟨rfl, rfl, rfl, ?_, rfl, rfl, rfl, rfl⟩⟩
  · show (if p = gpioLED1 then true else s.lineValue p) = s.lineValue p
    exact if_neg hp
  · show (if p = gpioLED1 then false else s.lineValue p) = s.lineValue p
    exact if_neg hp
  · show (if q = gpioLED2 then true else s.lineValue q) = s.lineValue q
    exact if_neg hq
  · show (if q = gpioLED2 then false else s.lineValue q) = s.lineValue q
    exact if_neg hq

/-- C1 witness: the amended claim instantiated with `env0`, the LED-1-lit
state, and the untouched pin 0 for both "other line" clauses. -/
theorem c1_amended_witness :
    ((ebbgpio_irq_handlerA env0 0 sLed1On).1.led1On = true ∧
     (ebbgpio_irq_handlerA env0 0 sLed1On).1.lineValue gpioLED1 = true ∧
     (ebbgpio_irq_handlerA env0 0 sLed1On).1.led2On = sLed1On.led2On ∧
     (ebbgpio_irq_handlerA env0 0 sLed1On).1.lineValue 0 = sLed1On.lineValue 0 ∧
     (ebbgpio_irq_handlerA env0 0 sLed1On).1.numberPressesA = (sLed1On.numberPressesA + 1) % U32 ∧
     (ebbgpio_irq_handlerA env0 0 sLed1On).1.numberPressesB = sLed1On.numberPressesB ∧
     (ebbgpio_irq_handlerA env0 0 sLed1On).1.numberPressesC = sLed1On.numberPressesC ∧
     (ebbgpio_irq_handlerA env0 0 sLed1On).1.numberPressesD = sLed1On.numberPressesD) ∧
    ((ebbgpio_irq_handlerB env0 0 sLed1On).1.led1On = false ∧
     (ebbgpio_irq_handlerB env0 0 sLed1On).1.lineValue gpioLED1 = false ∧
     (ebbgpio_irq_handlerB env0 0 sLed1On).1.led2On = sLed1On.led2On ∧
     (ebbgpio_irq_handlerB env0 0 sLed1On).1.lineValue 0 = sLed1On.lineValue 0 ∧
     (ebbgpio_irq_handlerB env0 0 sLed1On).1.numberPressesB = (sLed1On.numberPressesB + 1) % U32 ∧
     (ebbgpio_irq_handlerB env0 0 sLed1On).1.numberPressesA = sLed1On.numberPressesA ∧
     (ebbgpio_irq_handlerB env0 0 sLed1On).1.numberPressesC = sLed1On.numberPressesC ∧
     (ebbgpio_irq_handlerB env0 0 sLed1On).1.numberPressesD = sLed1On.numberPressesD) ∧
    ((ebbgpio_irq_handlerC env0 0 sLed1On).1.led2On = true ∧
     (ebbgpio_irq_handlerC env0 0 sLed1On).1.lineValue gpioLED2 = true ∧
     (ebbgpio_irq_handlerC env0 0 sLed1On).1.led1On = sLed1On.led1On ∧
     (ebbgpio_irq_handlerC env0 0 sLed1On).1.lineValue 0 = sLed1On.lineValue 0 ∧
     (ebbgpio_irq_handlerC env0 0 sLed1On).1.numberPressesC = (sLed1On.numberPressesC + 1) % U32 ∧
     (ebbgpio_irq_handlerC env0 0 sLed1On).1.numberPressesA = sLed1On.numberPressesA ∧
     (ebbgpio_irq_handlerC env0 0 sLed1On).1.numberPressesB = sLed1On.numberPressesB ∧
     (ebbgpio_irq_handlerC env0 0 sLed1On).1.numberPressesD = sLed1On.numberPressesD) ∧
    ((ebbgpio_irq_handlerD env0 0 sLed1On).1.led2On = false ∧
     (ebbgpio_irq_handlerD env0 0 sLed1On).1.lineValue gpioLED2 = false ∧
     (ebbgpio_irq_handlerD env0 0 sLed1On).1.led1On = sLed1On.led1On ∧
     (ebbgpio_irq_handlerD env0 0 sLed1On).1.lineValue 0 = sLed1On.lineValue 0 ∧
     (ebbgpio_irq_handlerD env0 0 sLed1On).1.numberPressesD = (sLed1On.numberPressesD + 1) % U32 ∧
     (ebbgpio_irq_handlerD env0 0 sLed1On).1.numberPressesA = sLed1On.numberPressesA ∧
     (ebbgpio_irq_handlerD env0 0 sLed1On).1.numberPressesB = sLed1On.numberPressesB ∧
     (ebbgpio_irq_handlerD env0 0 sLed1On).1.numberPressesC = sLed1On.numberPressesC) :=
  c1_amended env0 0 sLed1On 0 0 (by decide) (by decide)

/-- C5 counterexample: within handler A the four core steps do not occur in
the claimed order flip → write → increment → dispatch: the counter increment
comes after the usermode-helper dispatch, not before it. -/
theorem c5_counterexample :
    ebbgpio_irq_handlerA_steps.filter isCoreStep ≠
      [HStep.setLedFlag .led1 true, .writeLedFromFlag .led1 gpioLED1,
       .incCounter .A, .dispatch argv1head] := by
  decide

/-- C5 amended: within each handler the four core steps are strictly ordered
as flag assignment → line write → notification dispatch → counter increment
(the dispatch precedes the increment, contrary to the spec). -/
theorem c5_amended :
    ebbgpio_irq_handlerA_steps.filter isCoreStep =
      [HStep.setLedFlag .led1 true, .writeLedFromFlag .led1 gpioLED1,
       .dispatch argv1head, .incCounter .A] ∧
    ebbgpio_irq_handlerB_steps.filter isCoreStep =
      [HStep.setLedFlag .led1 false, .writeLedFromFlag .led1 gpioLED1,
       .dispatch argv2head, .incCounter .B] ∧
    ebbgpio_irq_handlerC_steps.filter isCoreStep =
      [HStep.setLedFlag .led2 true, .writeLedFromFlag .led2 gpioLED2,
       .dispatch argv3head, .incCounter .C] ∧
    ebbgpio_irq_handlerD_steps.filter isCoreStep =
      [HStep.setLedFlag .led2 false, .writeLedFromFlag .led2 gpioLED2,
       .dispatch argv4head, .incCounter .D] := by
  decide

/-- C3 counterexample: the exit path is not the reverse of the construction
order — it is not the spec's per-binding reverse-order teardown sequence,
and in particular the four interrupts are unbound in forward order A, B, C,
D rather than in reverse declaration order D, C, B, A. -/
theorem c3_counterexample :
    ebbgpio_exit_trace ≠ spec_stop_trace ∧
    ebbgpio_exit_trace.filter isUnbindIrq ≠
      [Ev.unbindIrq gpioButtonD, .unbindIrq gpioButtonC,
       .unbindIrq gpioButtonB, .unbindIrq gpioButtonA] := by
  decide

/-- C3 amended: `ebbgpio_exit` tears down in forward declaration order, not
reverse: it first forces both LED lines off and unexports the LEDs, then for
each button in declaration order A, B, C, D unbinds its interrupt and
unexports the button line, then frees all six lines (LEDs first, then the
buttons, in declaration order); every line requested during init is freed. -/
theorem c3_amended :
    ebbgpio_exit_trace.take 4 =
      [Ev.setValue gpioLED1 false, .setValue gpioLED2 false,
       .unexport gpioLED1, .unexport gpioLED2] ∧
    ebbgpio_exit_trace.filter isUnbindIrq =
      [Ev.unbindIrq gpioButtonA, .unbindIrq gpioButtonB,
       .unbindIrq gpioButtonC, .unbindIrq gpioButtonD] ∧
    ebbgpio_exit_trace.filterMap freePin =
      [gpioLED1, gpioLED2, gpioButtonA, gpioButtonB, gpioButtonC, gpioButtonD] ∧
    ebbgpio_init_trace.filterMap requestPin = ebbgpio_exit_trace.filterMap freePin := by
  decide

/-- C2 counterexample: after a fully successful init from the pristine
state, LED 1's logical flag is not off — init deliberately turns both LEDs
on (`led1On = true; led2On = true; gpio_direction_output(..., ledOn)`). -/
theorem c2_counterexample :
    (ebbgpio_init env0 initialState).2.led1On ≠ false := by
  decide

/-- C2 amended: immediately after a successful `start()` every press counter
equals 0, but every LED is in the ON state, both in the logical flags and in
the values written to the two output lines. -/
theorem c2_amended (env : HwEnv)
    (h1 : env.gpio_is_valid gpioLED1 = true) (h2 : env.gpio_is_valid gpioLED2 = true) :
    (ebbgpio_init env initialState).2.numberPressesA = 0 ∧
    (ebbgpio_init env initialState).2.numberPressesB = 0 ∧
    (ebbgpio_init env initialState).2.numberPressesC = 0 ∧
    (ebbgpio_init env initialState).2.numberPressesD = 0 ∧
    (ebbgpio_init env initialState).2.led1On = true ∧
    (ebbgpio_init env initialState).2.led2On = true ∧
    (ebbgpio_init env initialState).2.lineValue gpioLED1 = true ∧
    (ebbgpio_init env initialState).2.lineValue gpioLED2 = true := by
  unfold ebbgpio_init
  rw [if_neg (show ¬(env.gpio_is_valid gpioLED1 = false) by simp [h1]),
      if_neg (show ¬(env.gpio_is_valid gpioLED2 = false) by simp [h2])]
  exact ⟨rfl, rfl, rfl, rfl, rfl, rfl, rfl, rfl⟩

/-- C2 witness: the amended claim instantiated at the all-success
environment `env0`. -/
theorem c2_amended_witness :
    (ebbgpio_init env0 initialState).2.numberPressesA = 0 ∧
    (ebbgpio_init env0 initialState).2.numberPressesB = 0 ∧
    (ebbgpio_init env0 initialState).2.numberPressesC = 0 ∧
    (ebbgpio_init env0 initialState).2.numberPressesD = 0 ∧
    (ebbgpio_init env0 initialState).2.led1On = true ∧
    (ebbgpio_init env0 initialState).2.led2On = true ∧
    (ebbgpio_init env0 initialState).2.lineValue gpioLED1 = true ∧
    (ebbgpio_init env0 initialState).2.lineValue gpioLED2 = true :=
  c2_amended env0 (by decide) (by decide)

/-- C4 counterexample: in an environment where every step succeeds except
that binding button B's interrupt fails with `-5`, the first (and only)
error of the `start()` call is `-5`, yet `ebbgpio_init` returns 0 — the
failure is silently dropped, the call is not fatal and the caller does not
see the first encountered error. -/
theorem c4_counterexample :
    firstInitError envFailB = -5 ∧ (ebbgpio_init envFailB initialState).1 = 0 := by
  decide

/-- C4 amended: the value `start()` returns is `-ENODEV` when an LED pin
fails validation, and otherwise exactly the `request_irq` result for button
A's IRQ; failures of any `gpio_request` and of the interrupt binds for
buttons B, C and D never influence the return value. -/
theorem c4_amended (env : HwEnv) (s : KState) :
    (ebbgpio_init env s).1 =
      if env.gpio_is_valid gpioLED1 = false then -ENODEV
      else if env.gpio_is_valid gpioLED2 = false then -ENODEV
      else env.request_irq_result (env.gpio_to_irq gpioButtonA) := by
  unfold ebbgpio_init
  by_cases h1 : env.gpio_is_valid gpioLED1 = false
  · simp only [if_pos h1]
  · simp only [if_neg h1]
    by_cases h2 : env.gpio_is_valid gpioLED2 = false
    · simp only [if_pos h2]
    · simp only [if_neg h2]

/-- C6 counterexample: with button B's pin invalid (its `gpio_request` and
`request_irq` fail accordingly) `start()` still returns 0 — it does not fail
with an invalid-pin error, because only the two LED pins are ever
validated. -/
theorem c6_counterexample :
    envInvalidB.gpio_is_valid gpioButtonB = false ∧
    (ebbgpio_init envInvalidB initialState).1 = 0 := by
  decide

/-- C6 amended: only the two LED pins are validated at startup.  An invalid
LED pin aborts init with `-ENODEV` before any line is requested, exported or
written (no side effect on any resource table); the validity of the four
button pins is never consulted — replacing it arbitrarily leaves the entire
result of `ebbgpio_init` unchanged. -/
theorem c6_amended (env : HwEnv) (g : Nat → Bool) (s : KState) :
    (env.gpio_is_valid gpioLED1 = false →
      (ebbgpio_init env s).1 = -ENODEV ∧
      (ebbgpio_init env s).2.owned = s.owned ∧
      (ebbgpio_init env s).2.exported = s.exported ∧
      (ebbgpio_init env s).2.irqBound = s.irqBound ∧
      (ebbgpio_init env s).2.lineValue = s.lineValue) ∧
    (env.gpio_is_valid gpioLED1 = true → env.gpio_is_valid gpioLED2 = false →
      (ebbgpio_init env s).1 = -ENODEV ∧
      (ebbgpio_init env s).2.owned = s.owned ∧
      (ebbgpio_init env s).2.exported = s.exported ∧
      (ebbgpio_init env s).2.irqBound = s.irqBound ∧
      (ebbgpio_init env s).2.lineValue = s.lineValue) ∧
    ebbgpio_init (overrideButtonValidity env g) s = ebbgpio_init env s := by
  refine ⟨fun h => ?_, fun h1 h2 => ?_, rfl⟩
  · unfold ebbgpio_init
    rw [if_pos h]
    exact ⟨rfl, rfl, rfl, rfl, rfl⟩
  · unfold ebbgpio_init
    rw [if_neg (show ¬(env.gpio_is_valid gpioLED1 = false) by simp [h1]), if_pos h2]
    exact ⟨rfl, rfl, rfl, rfl, rfl⟩

/-- C6 witness: the amended claim instantiated at concrete environments with
an invalid LED 1 pin and an invalid LED 2 pin. -/
theorem c6_amended_witness :
    (ebbgpio_init envInvalidLed1 initialState).1 = -ENODEV ∧
    (ebbgpio_init envInvalidLed1 initialState).2.owned = initialState.owned ∧
    (ebbgpio_init envInvalidLed2 initialState).1 = -ENODEV ∧
    ebbgpio_init (overrideButtonValidity env0 (fun _ => false)) initialState =
      ebbgpio_init env0 initialState :=
  ⟨((c6_amended envInvalidLed1 (fun _ => false) initialState).1 (by decide)).1,
   ((c6_amended envInvalidLed1 (fun _ => false) initialState).1 (by decide)).2.1,
   ((c6_amended envInvalidLed2 (fun _ => false) initialState).2.1 (by decide) (by decide)).1,
   (c6_amended env0 (fun _ => false) initialState).2.2⟩

/-- C7: after `ebbgpio_exit` from any state whose line table contains only
the module's six pins, both LED output lines carry the value `false`, the
line table is empty, and the shutdown log reports the final value of every
one of the four press counters. -/
theorem c7_shutdown (env : HwEnv) (s : KState) (h : ∀ p ∈ s.owned, p ∈ allPins) :
    (ebbgpio_exit env s).lineValue gpioLED1 = false ∧
    (ebbgpio_exit env s).lineValue gpioLED2 = false ∧
    (ebbgpio_exit env s).owned = [] ∧
    LogMsg.pressCount .A s.numberPressesA ∈ (ebbgpio_exit env s).log ∧
    LogMsg.pressCount .B s.numberPressesB ∈ (ebbgpio_exit env s).log ∧
    LogMsg.pressCount .C s.numberPressesC ∈ (ebbgpio_exit env s).log ∧
    LogMsg.pressCount .D s.numberPressesD ∈ (ebbgpio_exit env s).log := by
  refine ⟨rfl, rfl, ?_, ?_, ?_, ?_, ?_⟩
  · have e : (ebbgpio_exit env s).owned =
        ((((((s.owned.filter (fun p => p ≠ gpioLED1)).filter
          (fun p => p ≠ gpioLED2)).filter (fun p => p ≠ gpioButtonA)).filter
          (fun p => p ≠ gpioButtonB)).filter (fun p => p ≠ gpioButtonC)).filter
          (fun p => p ≠ gpioButtonD)) := by
      simp only [ebbgpio_exit, exitLogTail, exitLogHead, gpio_set_value, gpio_unexport,
        gpio_free, freeIrqA, freeIrqB, freeIrqC, freeIrqD, free_irq]
    rw [e]
    exact filter_six_nil s.owned h
  all_goals
    simp only [ebbgpio_exit, exitLogTail, exitLogHead, gpio_set_value, gpio_unexport,
      gpio_free, freeIrqA, freeIrqB, freeIrqC, freeIrqD, free_irq]
  all_goals simp

/-- C7 witness: the claim instantiated, under `env0`, at the state reached
after a full start and seven presses of button A (counter 7, LED 1 lit, all
six lines owned). -/
theorem c7_shutdown_witness :
    (ebbgpio_exit env0 sSevenA).lineValue gpioLED1 = false ∧
    (ebbgpio_exit env0 sSevenA).lineValue gpioLED2 = false ∧
    (ebbgpio_exit env0 sSevenA).owned = [] ∧
    LogMsg.pressCount .A sSevenA.numberPressesA ∈ (ebbgpio_exit env0 sSevenA).log ∧
    LogMsg.pressCount .B sSevenA.numberPressesB ∈ (ebbgpio_exit env0 sSevenA).log ∧
    LogMsg.pressCount .C sSevenA.numberPressesC ∈ (ebbgpio_exit env0 sSevenA).log ∧
    LogMsg.pressCount .D sSevenA.numberPressesD ∈ (ebbgpio_exit env0 sSevenA).log :=
  c7_shutdown env0 sSevenA (by decide)

end Practice1
